import Mathlib

/-!
Verification of the PravdaPlus repository (two FastAPI services:
`services/api/main.py`, the gateway, and `services/transformer/main.py`,
the transformer) against its natural-language specification.

The Python sources are shallowly embedded below.  Pure helpers become Lean
functions; the network is abstracted by outcome parameters (one value per
upstream call describing what the wire returned); machine integers are `Nat`
with explicit `% 2 ^ 32` where CPython wraps; Python exceptions become
`Except`/explicit error results.
-/

/-! ## Models of the Python string primitives used by the two services -/

/-- Model of `str.lower()` restricted to ASCII case mapping (all keyword
tests in the source involve ASCII-only needles). -/
def pyLower (s : String) : String := ⟨s.data.map Char.toLower⟩

/-- Model of `str.upper()` restricted to ASCII case mapping. -/
def pyUpper (s : String) : String := ⟨s.data.map Char.toUpper⟩

/-- Model of `str.strip()` (whitespace trimming at both ends). -/
def pyStrip (s : String) : String :=
  ⟨((s.data.dropWhile Char.isWhitespace).reverse.dropWhile Char.isWhitespace).reverse⟩

/-- Auxiliary for `pyIn`: does `n` occur as a contiguous run inside `h`? -/
def pyInAux (n : List Char) : List Char → Bool
  | [] => n.isEmpty
  | c :: t => n.isPrefixOf (c :: t) || pyInAux n t

/-- Model of Python `needle in hay` for strings (substring test). -/
def pyIn (needle hay : String) : Bool := pyInAux needle.data hay.data

/-- Model of Python string slicing `s[:k]` (first `k` code points). -/
def pySlice (s : String) (k : Nat) : String := ⟨s.data.take k⟩

/-! ## MD5 (the digest used by `hashlib.md5` in the transformer)

Translated from the reference algorithm implemented by `hashlib.md5`:
message padding, 64 rounds per 512-bit block, little-endian digest.
All words are `Nat` reduced `% 2 ^ 32`. -/

/-- The 64 MD5 round constants `K[i]` (floor(2^32 * |sin(i+1)|)). -/
def md5Kconst : List Nat :=
  [0xd76aa478, 0xe8c7b756, 0x242070db, 0xc1bdceee,
   0xf57c0faf, 0x4787c62a, 0xa8304613, 0xfd469501,
   0x698098d8, 0x8b44f7af, 0xffff5bb1, 0x895cd7be,
   0x6b901122, 0xfd987193, 0xa679438e, 0x49b40821,
   0xf61e2562, 0xc040b340, 0x265e5a51, 0xe9b6c7aa,
   0xd62f105d, 0x02441453, 0xd8a1e681, 0xe7d3fbc8,
   0x21e1cde6, 0xc33707d6, 0xf4d50d87, 0x455a14ed,
   0xa9e3e905, 0xfcefa3f8, 0x676f02d9, 0x8d2a4c8a,
   0xfffa3942, 0x8771f681, 0x6d9d6122, 0xfde5380c,
   0xa4beea44, 0x4bdecfa9, 0xf6bb4b60, 0xbebfbc70,
   0x289b7ec6, 0xeaa127fa, 0xd4ef3085, 0x04881d05,
   0xd9d4d039, 0xe6db99e5, 0x1fa27cf8, 0xc4ac5665,
   0xf4292244, 0x432aff97, 0xab9423a7, 0xfc93a039,
   0x655b59c3, 0x8f0ccc92, 0xffeff47d, 0x85845dd1,
   0x6fa87e4f, 0xfe2ce6e0, 0xa3014314, 0x4e0811a1,
   0xf7537e82, 0xbd3af235, 0x2ad7d2bb, 0xeb86d391]

/-- The per-round left-rotation amounts `s[i]`. -/
def md5Shift : List Nat :=
  [7, 12, 17, 22, 7, 12, 17, 22, 7, 12, 17, 22, 7, 12, 17, 22,
   5, 9, 14, 20, 5, 9, 14, 20, 5, 9, 14, 20, 5, 9, 14, 20,
   4, 11, 16, 23, 4, 11, 16, 23, 4, 11, 16, 23, 4, 11, 16, 23,
   6, 10, 15, 21, 6, 10, 15, 21, 6, 10, 15, 21, 6, 10, 15, 21]

/-- `k` bytes of `n`, little-endian. -/
def leBytes : Nat → Nat → List Nat
  | 0, _ => []
  | k + 1, n => n % 256 :: leBytes k (n / 256)

/-- UTF-8 encoding of a single code point (model of `str.encode()` per char). -/
def utf8Char (n : Nat) : List Nat :=
  if n < 0x80 then [n]
  else if n < 0x800 then [0xC0 + n / 0x40, 0x80 + n % 0x40]
  else if n < 0x10000 then
    [0xE0 + n / 0x1000, 0x80 + n / 0x40 % 0x40, 0x80 + n % 0x40]
  else
    [0xF0 + n / 0x40000, 0x80 + n / 0x1000 % 0x40,
     0x80 + n / 0x40 % 0x40, 0x80 + n % 0x40]

/-- Model of Python `s.encode()` (UTF-8 bytes of the string). -/
def utf8Encode (s : String) : List Nat := (s.data.map fun c => utf8Char c.toNat).flatten

/-- MD5 padding: append `0x80`, zero-fill to 56 mod 64, then the original
bit length as 8 little-endian bytes. -/
def md5Pad (msg : List Nat) : List Nat :=
  msg ++ [0x80] ++ List.replicate ((120 - (msg.length + 1) % 64) % 64) 0
      ++ leBytes 8 (msg.length * 8 % 2 ^ 64)

/-- Group bytes into little-endian 32-bit words. -/
def leWords : List Nat → List Nat
  | b0 :: b1 :: b2 :: b3 :: rest =>
      (b0 + 256 * (b1 + 256 * (b2 + 256 * b3))) :: leWords rest
  | _ => []

/-- Round function `F`/`G`/`H`/`I` depending on the round index. -/
def md5F (i b c d : Nat) : Nat :=
  if i < 16 then (b &&& c) ||| ((b ^^^ 0xffffffff) &&& d)
  else if i < 32 then (d &&& b) ||| ((d ^^^ 0xffffffff) &&& c)
  else if i < 48 then b ^^^ c ^^^ d
  else c ^^^ (b ||| (d ^^^ 0xffffffff))

/-- Message-word index for round `i`. -/
def md5G (i : Nat) : Nat :=
  if i < 16 then i
  else if i < 32 then (5 * i + 1) % 16
  else if i < 48 then (3 * i + 5) % 16
  else 7 * i % 16

/-- 32-bit left rotation (argument assumed `< 2 ^ 32`). -/
def rotl32 (x c : Nat) : Nat := x * 2 ^ c % 2 ^ 32 + x / 2 ^ (32 - c)

/-- One MD5 round applied to the running state `(a, b, c, d)`. -/
def md5Round (M : List Nat) (st : Nat × Nat × Nat × Nat) (i : Nat) :
    Nat × Nat × Nat × Nat :=
  let a := st.1; let b := st.2.1; let c := st.2.2.1; let d := st.2.2.2
  let f := (md5F i b c d + a + md5Kconst.getD i 0 + M.getD (md5G i) 0) % 2 ^ 32
  (d, (b + rotl32 f (md5Shift.getD i 0)) % 2 ^ 32, b, c)

/-- Compress one 64-byte block into the chaining state. -/
def md5Block (st : Nat × Nat × Nat × Nat) (block : List Nat) :
    Nat × Nat × Nat × Nat :=
  let M := leWords block
  let r := (List.range 64).foldl (md5Round M) st
  ((st.1 + r.1) % 2 ^ 32, (st.2.1 + r.2.1) % 2 ^ 32,
   (st.2.2.1 + r.2.2.1) % 2 ^ 32, (st.2.2.2 + r.2.2.2) % 2 ^ 32)

/-- Fold the compression function over the 64-byte blocks of a padded
message. -/
def md5Process (st : Nat × Nat × Nat × Nat) (bs : List Nat) :
    Nat × Nat × Nat × Nat :=
  if h : bs = [] then st
  else md5Process (md5Block st (bs.take 64)) (bs.drop 64)
termination_by bs.length
decreasing_by
  simp only [List.length_drop]
  exact Nat.sub_lt (List.length_pos.mpr h) (by norm_num)

/-- The 16 digest bytes of a byte message. -/
def md5DigestBytes (msg : List Nat) : List Nat :=
  let r := md5Process (0x67452301, 0xefcdab89, 0x98badcfe, 0x10325476) (md5Pad msg)
  leBytes 4 r.1 ++ leBytes 4 r.2.1 ++ leBytes 4 r.2.2.1 ++ leBytes 4 r.2.2.2

/-- Lowercase hex digit for a nibble (`0`–`9` then `a`–`f`). -/
def nibbleChar (n : Nat) : Char :=
  if n < 10 then Char.ofNat (48 + n) else Char.ofNat (87 + n)

/-- Model of `hashlib.md5(msg).hexdigest()` as a character list. -/
def md5HexDigest (msg : List Nat) : List Char :=
  (md5DigestBytes msg).map (fun b => [nibbleChar (b / 16), nibbleChar (b % 16)]) |>.flatten

/-- Numeric value of one hex digit character (digits produced by
`md5HexDigest` are lowercase). -/
def hexCharVal (c : Char) : Nat :=
  if '0' ≤ c && c ≤ '9' then c.toNat - 48
  else if 'a' ≤ c && c ≤ 'f' then c.toNat - 87
  else if 'A' ≤ c && c ≤ 'F' then c.toNat - 55
  else 0

/-- Model of Python `int(s, 16)` on a valid hex-digit string. -/
def pyHexVal (l : List Char) : Nat := l.foldl (fun acc c => acc * 16 + hexCharVal c) 0

/-! ## Mersenne Twister (CPython's `random` module)

Translated from CPython's `_randommodule.c` (MT19937): `init_genrand`,
`init_by_array`, the block twist, tempering, `getrandbits`, `_randbelow`,
`choice` and `randint`.  `random.seed(n)` for a nonnegative int seeds via
`init_by_array` on the 32-bit little-endian chunks of `n`. -/

/-- Generator state: the 624-word vector plus the output index. -/
structure MTState where
  mt : Array Nat
  idx : Nat

/-- `init_genrand(s)`: fill the state vector from a single 32-bit seed. -/
def mtInitGenrand (s : Nat) : Array Nat :=
  (List.range 624).foldl
    (fun arr i =>
      if i = 0 then arr.set! 0 (s % 2 ^ 32)
      else
        let prev := arr.get! (i - 1)
        arr.set! i ((1812433253 * (prev ^^^ prev / 2 ^ 30) + i) % 2 ^ 32))
    (Array.mkArray 624 0)

/-- One iteration of the first `init_by_array` mixing loop; the state is
`(vector, i, j)`. -/
def mtMix1 (key : Array Nat) (klen : Nat) (st : Array Nat × Nat × Nat) :
    Array Nat × Nat × Nat :=
  let mt := st.1; let i := st.2.1; let j := st.2.2
  let prev := mt.get! (i - 1)
  let v := ((mt.get! i ^^^ (prev ^^^ prev / 2 ^ 30) * 1664525 % 2 ^ 32)
            + key.get! j + j) % 2 ^ 32
  let mt := mt.set! i v
  let i := i + 1
  let p := if i ≥ 624 then (mt.set! 0 (mt.get! 623), 1) else (mt, i)
  (p.1, p.2, if j + 1 ≥ klen then 0 else j + 1)

/-- One iteration of the second `init_by_array` mixing loop; the state is
`(vector, i)`. -/
def mtMix2 (st : Array Nat × Nat) : Array Nat × Nat :=
  let mt := st.1; let i := st.2
  let prev := mt.get! (i - 1)
  let v := ((mt.get! i ^^^ (prev ^^^ prev / 2 ^ 30) * 1566083941 % 2 ^ 32)
            + (2 ^ 32 - i)) % 2 ^ 32
  let mt := mt.set! i v
  let i := i + 1
  if i ≥ 624 then (mt.set! 0 (mt.get! 623), 1) else (mt, i)

/-- `init_by_array(key)`. -/
def mtInitByArray (key : List Nat) : Array Nat :=
  let keyArr := key.toArray
  let klen := key.length
  let r1 := (List.range (max 624 klen)).foldl
    (fun st _ => mtMix1 keyArr klen st) (mtInitGenrand 19650218, 1, 0)
  let r2 := (List.range 623).foldl (fun st _ => mtMix2 st) (r1.1, r1.2.1)
  r2.1.set! 0 0x80000000

/-- 32-bit little-endian chunks of a nonnegative integer (the key that
CPython's `random.seed` passes to `init_by_array`; for `n = 0` the key is
`[0]`, handled in `mtSeedPython`). -/
def natChunks32 (n : Nat) : List Nat :=
  if h : n = 0 then []
  else n % 2 ^ 32 :: natChunks32 (n / 2 ^ 32)
termination_by n
decreasing_by exact Nat.div_lt_self (Nat.pos_of_ne_zero h) (by norm_num)

/-- Model of `random.seed(n)` for a nonnegative integer `n`. -/
def mtSeedPython (n : Nat) : MTState :=
  ⟨mtInitByArray (if n = 0 then [0] else natChunks32 n), 624⟩

/-- One step of the in-place block regeneration (`genrand_uint32`'s twist). -/
def mtTwistStep (mt : Array Nat) (i : Nat) : Array Nat :=
  let y := mt.get! i / 2 ^ 31 * 2 ^ 31 + mt.get! ((i + 1) % 624) % 2 ^ 31
  mt.set! i (mt.get! ((i + 397) % 624) ^^^ y / 2 ^^^ (if y % 2 = 1 then 0x9908b0df else 0))

/-- Regenerate the 624-word block. -/
def mtTwist (mt : Array Nat) : Array Nat := (List.range 624).foldl mtTwistStep mt

/-- Output tempering. -/
def mtTemper (y : Nat) : Nat :=
  let y := y ^^^ y / 2 ^ 11
  let y := y ^^^ (y * 2 ^ 7 &&& 0x9d2c5680)
  let y := y ^^^ (y * 2 ^ 15 &&& 0xefc60000)
  y ^^^ y / 2 ^ 18

/-- `genrand_uint32`: one 32-bit draw. -/
def mtNext (g : MTState) : Nat × MTState :=
  if g.idx ≥ 624 then
    let mt := mtTwist g.mt
    (mtTemper (mt.get! 0), ⟨mt, 1⟩)
  else
    (mtTemper (g.mt.get! g.idx), ⟨g.mt, g.idx + 1⟩)

/-- `getrandbits(k)` for `k ≤ 32`: the top `k` bits of one draw. -/
def pyGetrandbits (k : Nat) (g : MTState) : Nat × MTState :=
  let r := mtNext g
  (r.1 / 2 ^ (32 - k), r.2)

/-- Python `int.bit_length()`. -/
def pyBitLength (n : Nat) : Nat := if n = 0 then 0 else Nat.log2 n + 1

/-- `Random._randbelow(n)`: rejection sampling on `getrandbits(k)`.
CPython's loop is unbounded; here it is fuel-bounded (the fuel is never
exhausted in any concrete evaluation in this file) and on exhaustion
returns the last draw reduced `% n` so that the result stays below `n`. -/
def pyRandbelowAux (n k : Nat) : Nat → MTState → Nat × MTState
  | 0, g =>
      let r := pyGetrandbits k g
      (r.1 % n, r.2)
  | fuel + 1, g =>
      let r := pyGetrandbits k g
      if r.1 < n then (r.1, r.2) else pyRandbelowAux n k fuel r.2

/-- `Random._randbelow(n)` with the default fuel. -/
def pyRandbelow (n : Nat) (g : MTState) : Nat × MTState :=
  pyRandbelowAux n (pyBitLength n) 64 g

/-- `random.choice(seq)`: `seq[_randbelow(len(seq))]`. -/
def pyChoice (l : List String) (g : MTState) : String × MTState :=
  let r := pyRandbelow l.length g
  (l.getD r.1 "", r.2)

/-- `random.randint(a, b)`: `a + _randbelow(b - a + 1)`. -/
def pyRandint (a b : Nat) (g : MTState) : Nat × MTState :=
  let r := pyRandbelow (b - a + 1) g
  (a + r.1, r.2)

/-! ## Shared HTTP/exception modelling -/

/-- Result of one HTTP endpoint call: a 200 body, or an error status with a
FastAPI `detail` string. -/
inductive HttpResult (α : Type) where
  | ok (value : α)
  | err (status : Nat) (detail : String)
  deriving DecidableEq, Repr

/-- The Python exceptions relevant to the two services. -/
inductive PyExc where
  | httpExc (status : Nat) (detail : String)
  | timeoutExc
  | otherExc (msg : String)
  deriving DecidableEq, Repr

/-- Model of Python `str(e)` for the exceptions above (Starlette defines
`HTTPException.__str__` as `f"{status_code}: {detail}"`). -/
def pyStrExc : PyExc → String
  | .httpExc s d => toString s ++ ": " ++ d
  | .timeoutExc => ""
  | .otherExc m => m

/-! ## Transformer service (`services/transformer/main.py`) -/

namespace Transformer

/-- The transformer's `NewsItem` pydantic model (`pub_date` is a string
here, unlike the gateway's). -/
structure NewsItem where
  title : String
  description : String
  link : String
  pub_date : String
  category : String
  deriving DecidableEq, Repr

/-- The transformer's `TransformRequest` pydantic model. -/
structure TransformRequest where
  article : NewsItem
  style : String := "satirical"
  deriving DecidableEq, Repr

/-- The `transformed` mapping: exactly the keys `title`, `description`,
`content`. -/
structure Transformed where
  title : String
  description : String
  content : String
  deriving DecidableEq, Repr

/-- `satirical_angles` (line 68). -/
def satirical_angles : List String :=
  ["Local Area Experts Baffled by Predictable Turn of Events",
   "Scientists Discover That Things Continue to Happen, More at 11",
   "Breaking: World Still Spinning, Residents Unimpressed",
   "Researchers Confirm Reality Still Operating Within Normal Parameters",
   "Local Person Shocked to Learn Universe Follows Established Patterns",
   "Area Officials Announce That Time Continues Moving Forward",
   "Experts Puzzled by Occurrence of Scheduled Event",
   "Community Leaders Perplexed by Entirely Foreseeable Development"]

/-- `descriptors` (line 92). -/
def descriptors : List String :=
  ["startling revelation", "shocking development", "unprecedented occurrence",
   "mind-bending discovery", "earth-shattering news", "reality-defying event"]

/-- `expert_names` (line 100). -/
def expert_names : List String :=
  ["Dr. Sarah Mitchell", "Professor Bob Thompson", "Dr. Jennifer Walsh",
   "Professor Mike Stevens", "Dr. Lisa Chen", "Professor David Kumar"]

/-- `institutions` (line 101). -/
def institutions : List String :=
  ["University of Common Sense", "Institute of Obvious Studies",
   "College of Predictable Outcomes", "Academy of Expected Results"]

/-- `resident_names` (line 102). -/
def resident_names : List String :=
  ["Karen Johnson", "Mike Davis", "Jennifer Smith", "Bob Wilson",
   "Sarah Brown", "Tom Anderson"]

/-- The four fixed keyword headlines (lines 81, 83, 85, 87). -/
def politicalTitle : String :=
  "Local Man Discovers Politicians Still Doing Politics, Experts Stunned"

/-- Fixed headline for the health/medical branch. -/
def healthTitle : String :=
  "Area Residents Shocked to Learn Bodies Still Require Maintenance"

/-- Fixed headline for the business/finance branch. -/
def businessTitle : String :=
  "Money Continues to Exist Despite Public\x27s Best Efforts to Ignore It"

/-- Fixed headline for the technology branch. -/
def technologyTitle : String :=
  "Scientists Confirm: Computers Still Computing, Public Bewildered"

/-- `seed = int(hashlib.md5(article.title.encode()).hexdigest()[:8], 16)`
(line 64). -/
def seedOfTitle (title : String) : Nat :=
  pyHexVal ((md5HexDigest (utf8Encode title)).take 8)

/-- The category-specific scenario / expert-quote / resident-quote triple
(lines 110–125); keyword tests are on the lowercased category. -/
def scenarioTriple (cl : String) : String × String × String :=
  if pyIn "technology" cl then
    ("the latest technological development continues to perplex humanity",
     "We\x27ve been studying human-computer interaction for decades, and yet people still act surprised when technology does exactly what it was designed to do.",
     "I had no idea that pressing buttons would make things happen on screens.")
  else if pyIn "health" cl then
    ("people are discovering that their bodies still require basic maintenance",
     "After years of research, we\x27ve confirmed that the human body continues to function according to established biological principles.",
     "Who could have predicted that what I eat and how much I exercise would affect my health?")
  else if pyIn "business" cl then
    ("economic principles continue to operate as economists predicted",
     "Our extensive research has revealed that supply, demand, and market forces are still functioning exactly as textbooks describe.",
     "I\x27m shocked to learn that businesses exist to make money.")
  else
    ("current events continue to unfold in a logical sequence",
     "We\x27ve been observing cause-and-effect relationships for years, yet people remain surprised when actions have consequences.",
     "I had no idea that today would be followed by tomorrow.")

/-- The `mock_content` f-string template (lines 127–143). -/
def mockContentText (category institution expert resident : String)
    (residentAge : Nat) (scenario expertQuote residentQuote : String) : String :=
  "\n" ++ pyUpper category
  ++ " - In a development that has left researchers at the " ++ institution
  ++ " scrambling to update their \"Encyclopedia of Predictable Outcomes,\" recent events have confirmed that "
  ++ scenario ++ ".\n\n"
  ++ expert ++ ", Professor of Stating the Obvious at " ++ institution
  ++ ", expressed measured bewilderment at the public\x27s reaction: \""
  ++ expertQuote
  ++ " It\x27s like being surprised that gravity makes things fall down.\"\n\n"
  ++ "The discovery came after extensive research involving careful observation of reality and occasionally checking the news. \"The evidence was overwhelming,\" said lead researcher Dr. Amanda Foster, who spent nearly four minutes analyzing the situation before reaching her groundbreaking conclusion.\n\n"
  ++ "Local resident " ++ resident ++ ", " ++ toString residentAge
  ++ ", was reportedly \"stunned\" by this revelation. \"" ++ residentQuote
  ++ "\" she said while simultaneously demonstrating a complete understanding of exactly how these things work.\n\n"
  ++ "Meanwhile, experts continue to analyze the situation with the same level of accuracy they\x27ve maintained since the invention of expertise. \"We\x27re confident that things will continue to happen in roughly the order they happen,\" announced analyst Dr. Patricia Moore, before immediately being proven correct by the passage of time.\n\n"
  ++ "The international community has responded with its customary level of measured confusion, with world leaders issuing statements that can best be summarized as \"We acknowledge that events occurred and will probably continue occurring.\"\n\n"
  ++ "In related news, the sun rose this morning as scheduled, water remains wet, and people continue to have opinions about things.\n\n"
  ++ "This story is developing, assuming anyone can agree on what \x27developing\x27 means when applied to the unstoppable march of causality itself.\n"

/-- The `mock_title` selection (lines 80–89): keyword tests on the
lowercased title `tl` and lowercased category `cl`, in source order; only
the final branch draws from the generator. -/
def titleSel (g : MTState) (tl cl : String) : String × MTState :=
  if pyIn "trump" tl || pyIn "president" tl then (politicalTitle, g)
  else if pyIn "health" cl || pyIn "medical" tl then (healthTitle, g)
  else if pyIn "business" cl || pyIn "finance" tl then (businessTitle, g)
  else if pyIn "technology" cl then (technologyTitle, g)
  else pyChoice satirical_angles g

/-- The deterministic fallback generator (the body of
`transform_with_openai` when no credential is configured, lines 60–149),
parameterised by the seeded generator state `g0`.  The draws thread the
state in source order: optional headline choice, descriptor, expert,
institution, resident, resident age. -/
def mockGenerate (g0 : MTState) (title category : String) : Transformed :=
  let tl := pyLower title
  let cl := pyLower category
  let r1 := titleSel g0 tl cl
  let mock_title := r1.1
  let r2 := pyChoice descriptors r1.2
  let mock_description :=
    "In a " ++ r2.1
    ++ " that has left experts frantically updating their textbooks, recent events have confirmed what many suspected all along: things continue to happen in the world."
  let r3 := pyChoice expert_names r2.2
  let r4 := pyChoice institutions r3.2
  let r5 := pyChoice resident_names r4.2
  let r6 := pyRandint 25 65 r5.2
  let sc := scenarioTriple cl
  let mock_content :=
    mockContentText category r4.1 r3.1 r5.1 r6.1 sc.1 sc.2.1 sc.2.2
  ⟨mock_title, mock_description, pyStrip mock_content⟩

/-- The whole no-credential path of `transform_with_openai`: seed the
generator from the title digest, then generate. -/
def transformMock (a : NewsItem) : Transformed :=
  mockGenerate (mtSeedPython (seedOfTitle a.title)) a.title a.category

/-- What the wire returned for the one backend call of a request:
either `httpx` raised (timeout, connection failure), or an HTTP response
arrived.  For a response, `content` is `choices[0].message.content` when
the JSON body has that shape, and `none` when extracting it raises
(malformed JSON reply). -/
inductive BackendOutcome where
  | netError (msg : String)
  | resp (status : Nat) (content : Option String)
  deriving DecidableEq, Repr

/-- Fold state for the marker-scanning reply parse (lines 209–231). -/
structure ParseSt where
  cur : Option String
  title : String
  descr : String
  content : String
  contentLines : List String
  deriving Repr

/-- One line of the marker scan (the body of the `for line in lines`
loop). -/
def parseLine (st : ParseSt) (line : String) : ParseSt :=
  let ls := pyStrip line
  if ls.startsWith "TITLE:" then
    { st with cur := some "title", title := pyStrip (ls.replace "TITLE:" "") }
  else if ls.startsWith "DESCRIPTION:" then
    { st with cur := some "description",
              descr := pyStrip (ls.replace "DESCRIPTION:" "") }
  else if ls.startsWith "CONTENT:" then
    { st with cur := some "content",
              content := pyStrip (ls.replace "CONTENT:" "") }
  else if st.cur == some "description" && ls != "" && !ls.startsWith "CONTENT:" then
    { st with descr := st.descr ++ " " ++ ls }
  else if st.cur == some "content" && ls != "" then
    { st with contentLines := st.contentLines ++ [ls] }
  else st

/-- Generic fallback headline (line 244). -/
def genericTitle : String := "Breaking: Local News Still Happening, Experts Baffled"

/-- Generic fallback description (line 245). -/
def genericDescr : String := "In a shocking turn of events, things continue to occur in the world."

/-- Parse of a 200 backend reply (lines 208–252): scan lines for the three
markers; if no title or no description was found, re-split the whole reply
on blank lines into three chunks; if that fails too, fall back to the
generic headline/description with the raw reply as body. -/
def parseOpenAIReply (content : String) : Transformed :=
  let lines := (pyStrip content).splitOn "\n"
  let st := lines.foldl parseLine ⟨none, "", "", "", []⟩
  let tc := if st.contentLines != [] then String.intercalate "\n" st.contentLines
            else st.content
  let r :=
    if st.title == "" || st.descr == "" then
      let sections := content.splitOn "\n\n"
      if sections.length ≥ 3 then
        (pyStrip ((sections.getD 0 "").replace "TITLE:" ""),
         pyStrip ((sections.getD 1 "").replace "DESCRIPTION:" ""),
         pyStrip ((sections.getD 2 "").replace "CONTENT:" ""))
      else (genericTitle, genericDescr, pyStrip content)
    else (st.title, st.descr, tc)
  ⟨if r.1 == "" then genericTitle else r.1,
   if r.2.1 == "" then genericDescr else r.2.1,
   if r.2.2 == "" then pyStrip content else r.2.2⟩

/-- The `try` body of the configured path of `transform_with_openai`
(lines 151–252) as an exception-or-value computation.  A non-200 status
raises `HTTPException(500, ...)` (line 203) — inside the same `try`. -/
def openaiTryBody (o : BackendOutcome) : Except PyExc Transformed :=
  match o with
  | .netError m => .error (.otherExc m)
  | .resp status content =>
    if status ≠ 200 then
      .error (.httpExc 500 ("OpenAI API error: " ++ toString status))
    else
      match content with
      | none => .error (.otherExc "KeyError")
      | some c => .ok (parseOpenAIReply c)

/-- The fixed article returned by the `except` handler of
`transform_with_openai` (lines 254–261). -/
def openaiErrorFallback : Transformed :=
  ⟨"Local News Event Occurs, Area Residents Moderately Concerned",
   "[AI Transformation temporarily unavailable] Scientists baffled by yet another thing happening.",
   "BREAKING - In what experts are calling \x27a thing that happened,\x27 local events continue to unfold at the pace of reality itself. More details as they develop, or don\x27t."⟩

/-- `transform_with_openai(article, style)` with the module-level
`OPENAI_CONFIGURED` flag and the backend outcome made explicit.  Every
exception of the configured path is absorbed into `openaiErrorFallback`;
the function is total. -/
def transform_with_openai (configured : Bool) (a : NewsItem) (_style : String)
    (o : BackendOutcome) : Transformed :=
  if !configured then transformMock a
  else
    match openaiTryBody o with
    | .ok t => t
    | .error _ => openaiErrorFallback

/-- The response dict built by the `/transform` endpoint. -/
structure TransformResponse where
  original : NewsItem
  transformed : Transformed
  style : String
  timestamp : String
  status : String
  deriving DecidableEq, Repr

/-- The transformer's `POST /transform` handler (lines 272–288).  The
`try` body is total (`transform_with_openai` absorbs its own failures), so
the `except` branch that would map a raised exception to HTTP 500 is
unreachable; it is kept to mirror the source. -/
def transform_article (configured : Bool) (req : TransformRequest)
    (o : BackendOutcome) (nowIso : String) : HttpResult TransformResponse :=
  match (Except.ok (transform_with_openai configured req.article req.style o) :
      Except PyExc Transformed) with
  | .ok transformed =>
      .ok ⟨req.article, transformed, req.style, nowIso, "success"⟩
  | .error e => .err 500 ("Transformation failed: " ++ pyStrExc e)

end Transformer

/-! ## Gateway service (`services/api/main.py`) -/

/-- A naive datetime (the fields `datetime.strptime` produces for the
format used by the gateway). -/
structure PyDateTime where
  year : Nat
  month : Nat
  day : Nat
  hour : Nat
  minute : Nat
  second : Nat
  deriving DecidableEq, Repr

/-- Gregorian leap-year test (as in `datetime`). -/
def isLeapYear (y : Nat) : Bool := y % 4 == 0 && (y % 100 != 0 || y % 400 == 0)

/-- Days in a month (as validated by the `datetime` constructor). -/
def daysInMonth (y m : Nat) : Nat :=
  if m = 2 then (if isLeapYear y then 29 else 28)
  else if m = 4 ∨ m = 6 ∨ m = 9 ∨ m = 11 then 30
  else 31

/-- Numeric value of a decimal digit character. -/
def digitVal (c : Char) : Nat := c.toNat - 48

/-- Lowercase weekday abbreviations recognised by `%a` (C locale). -/
def dayAbbrevs : List String := ["mon", "tue", "wed", "thu", "fri", "sat", "sun"]

/-- Lowercase month abbreviations recognised by `%b` (C locale). -/
def monthAbbrevs : List String :=
  ["jan", "feb", "mar", "apr", "may", "jun",
   "jul", "aug", "sep", "oct", "nov", "dec"]

/-- Case-insensitive match of one of `names` at the head of `cs`; returns
the 0-based index of the matched name and the rest of the input. -/
def matchNameEntries (names : List String) (cs : List Char) :
    Option (Nat × List Char) :=
  match names with
  | [] => none
  | nm :: rest =>
    if (cs.take nm.length).map Char.toLower = nm.data ∧
        (cs.take nm.length).length = nm.length then
      some (0, cs.drop nm.length)
    else
      match matchNameEntries rest cs with
      | some p => some (p.1 + 1, p.2)
      | none => none

/-- Expect one literal character. -/
def expectChar (c : Char) : List Char → Option (List Char)
  | d :: rest => if d = c then some rest else none
  | [] => none

/-- `\s+` (the translation of a whitespace character in a `strptime`
format): one or more whitespace characters. -/
def skipWs1 : List Char → Option (List Char)
  | c :: rest =>
      if c.isWhitespace then some (rest.dropWhile Char.isWhitespace) else none
  | [] => none

/-- `%d`: `3[01] | [12]\d | 0[1-9] | [1-9]`, alternatives in order. -/
def parseDay2 : List Char → Option (Nat × List Char)
  | c1 :: c2 :: r =>
    if c1 = '3' ∧ (c2 = '0' ∨ c2 = '1') then some (30 + digitVal c2, r)
    else if (c1 = '1' ∨ c1 = '2') ∧ c2.isDigit then
      some (digitVal c1 * 10 + digitVal c2, r)
    else if c1 = '0' ∧ ('1' ≤ c2 ∧ c2 ≤ '9') then some (digitVal c2, r)
    else if '1' ≤ c1 ∧ c1 ≤ '9' then some (digitVal c1, c2 :: r)
    else none
  | [c1] => if '1' ≤ c1 ∧ c1 ≤ '9' then some (digitVal c1, []) else none
  | [] => none

/-- `%Y`: exactly four decimal digits. -/
def parseYear4 : List Char → Option (Nat × List Char)
  | c1 :: c2 :: c3 :: c4 :: r =>
    if c1.isDigit ∧ c2.isDigit ∧ c3.isDigit ∧ c4.isDigit then
      some (digitVal c1 * 1000 + digitVal c2 * 100 + digitVal c3 * 10
            + digitVal c4, r)
    else none
  | _ => none

/-- `%H`: `2[0-3] | [0-1]\d | \d`, alternatives in order. -/
def parseHour2 : List Char → Option (Nat × List Char)
  | c1 :: c2 :: r =>
    if c1 = '2' ∧ ('0' ≤ c2 ∧ c2 ≤ '3') then some (20 + digitVal c2, r)
    else if (c1 = '0' ∨ c1 = '1') ∧ c2.isDigit then
      some (digitVal c1 * 10 + digitVal c2, r)
    else if c1.isDigit then some (digitVal c1, c2 :: r)
    else none
  | [c1] => if c1.isDigit then some (digitVal c1, []) else none
  | [] => none

/-- `%M`: `[0-5]\d | \d`, alternatives in order. -/
def parseMin2 : List Char → Option (Nat × List Char)
  | c1 :: c2 :: r =>
    if ('0' ≤ c1 ∧ c1 ≤ '5') ∧ c2.isDigit then
      some (digitVal c1 * 10 + digitVal c2, r)
    else if c1.isDigit then some (digitVal c1, c2 :: r)
    else none
  | [c1] => if c1.isDigit then some (digitVal c1, []) else none
  | [] => none

/-- `%S`: `6[0-1] | [0-5]\d | \d`, alternatives in order (the 60/61 leap
seconds are later rejected by the `datetime` constructor). -/
def parseSec2 : List Char → Option (Nat × List Char)
  | c1 :: c2 :: r =>
    if c1 = '6' ∧ (c2 = '0' ∨ c2 = '1') then some (60 + digitVal c2, r)
    else if ('0' ≤ c1 ∧ c1 ≤ '5') ∧ c2.isDigit then
      some (digitVal c1 * 10 + digitVal c2, r)
    else if c1.isDigit then some (digitVal c1, c2 :: r)
    else none
  | [c1] => if c1.isDigit then some (digitVal c1, []) else none
  | [] => none

/-- Model of `datetime.strptime(s, "%a, %d %b %Y %H:%M:%S")`: the compiled
pattern (names case-insensitive, format whitespace as `\s+`) must consume
the whole input, and the resulting fields must satisfy the `datetime`
constructor's range checks.  `none` models the raised `ValueError`. -/
def pyStrptimeBBC (s : String) : Option PyDateTime := do
  let cs := s.data
  let (_, cs) ← matchNameEntries dayAbbrevs cs
  let cs ← expectChar ',' cs
  let cs ← skipWs1 cs
  let (d, cs) ← parseDay2 cs
  let cs ← skipWs1 cs
  let (mIdx, cs) ← matchNameEntries monthAbbrevs cs
  let m := mIdx + 1
  let cs ← skipWs1 cs
  let (y, cs) ← parseYear4 cs
  let cs ← skipWs1 cs
  let (h, cs) ← parseHour2 cs
  let cs ← expectChar ':' cs
  let (mi, cs) ← parseMin2 cs
  let cs ← expectChar ':' cs
  let (sec, cs) ← parseSec2 cs
  if cs = [] ∧ 1 ≤ y ∧ sec ≤ 59 ∧ d ≤ daysInMonth y m then
    some ⟨y, m, d, h, mi, sec⟩
  else none

namespace Api

/-- The gateway's `NewsItem` pydantic model (`pub_date` is a datetime). -/
structure NewsItem where
  title : String
  description : String
  link : String
  pub_date : PyDateTime
  category : String
  deriving DecidableEq, Repr

/-- One `<item>` node as seen through `ElementTree`: for each child tag,
the outer `Option` is element presence (`item.find(tag)`), the inner
`Option` is the element's text (`.text`, which is `None` for an empty
element). -/
structure RssItem where
  title : Option (Option String)
  description : Option (Option String)
  link : Option (Option String)
  pubDate : Option (Option String)
  deriving DecidableEq, Repr

/-- What the wire returned for one feed GET: the request (or reading the
body) raised, or an HTTP response arrived whose body `ET.fromstring`
either parsed into a list of `<item>` nodes or failed on (`none`). -/
inductive FetchOutcome where
  | exc
  | resp (status : Nat) (parsed : Option (List RssItem))
  deriving DecidableEq, Repr

/-- Processing of one `<item>` inside the `for` loop of `fetch_bbc_feed`
(lines 67–88).  An item missing `title`, `description` or `link` is
silently dropped (`.ok none`); an item whose present `title`/`description`
/`link` element has `None` text makes `None.strip()` raise
`AttributeError` (`.error ()`), which the caller's blanket handler turns
into an empty feed. -/
def processItem (category : String) (now : PyDateTime) (r : RssItem) :
    Except Unit (Option NewsItem) :=
  match r.title, r.description, r.link with
  | some titleText, some descrText, some linkText =>
    let dateStr : Option String :=
      match r.pubDate with
      | some txt => txt
      | none => none
    let parsedDate :=
      match dateStr with
      | none => now
      | some s =>
        if s == "" then now
        else
          match pyStrptimeBBC (pySlice s 25) with
          | some d => d
          | none => now
    match titleText, descrText, linkText with
    | some t, some d, some l =>
        .ok (some ⟨pyStrip t, pyStrip d, pyStrip l, parsedDate, category⟩)
    | _, _, _ => .error ()
  | _, _, _ => .ok none

/-- The whole `for item in items[:max_articles]` loop: sequential, the
first raised exception aborts it. -/
def processItems (category : String) (now : PyDateTime) :
    List RssItem → Except Unit (List NewsItem)
  | [] => .ok []
  | r :: rs =>
    match processItem category now r with
    | .error e => .error e
    | .ok none => processItems category now rs
    | .ok (some a) =>
      match processItems category now rs with
      | .error e => .error e
      | .ok rest => .ok (a :: rest)

/-- `fetch_bbc_feed` (lines 55–93): non-200 responses, XML parse errors,
network errors and any exception inside the item loop all produce an
empty list. -/
def fetch_bbc_feed (category : String) (max_articles : Nat)
    (o : FetchOutcome) (now : PyDateTime) : List NewsItem :=
  match o with
  | .exc => []
  | .resp status parsed =>
    if status ≠ 200 then []
    else
      match parsed with
      | none => []
      | some items =>
        match processItems category now (items.take max_articles) with
        | .ok articles => articles
        | .error _ => []

/-- `BBC_FEEDS` (lines 47–53). -/
def BBC_FEEDS : List (String × String) :=
  [("world", "http://feeds.bbci.co.uk/news/world/rss.xml"),
   ("uk", "http://feeds.bbci.co.uk/news/uk/rss.xml"),
   ("business", "http://feeds.bbci.co.uk/news/business/rss.xml"),
   ("technology", "http://feeds.bbci.co.uk/news/technology/rss.xml"),
   ("health", "http://feeds.bbci.co.uk/news/health/rss.xml")]

/-- The configured feed keys. -/
def feedKeys : List String := BBC_FEEDS.map Prod.fst

/-- `GET /news/{category}` (lines 104–112; `limit` defaults to 10). -/
def get_news_by_category (category : String) (limit : Nat)
    (o : FetchOutcome) (now : PyDateTime) : HttpResult (List NewsItem) :=
  if !feedKeys.contains category then
    .err 404 ("Category \x27" ++ category ++ "\x27 not found")
  else
    .ok (fetch_bbc_feed category limit o now)

/-- `GET /news` (lines 114–127; `limit` defaults to 5): one concurrent
fetch per configured feed, results zipped back onto the keys.  `oc`
assigns each category its wire outcome. -/
def get_all_news (limit : Nat) (oc : String → FetchOutcome)
    (now : PyDateTime) : List (String × List NewsItem) :=
  BBC_FEEDS.map fun p => (p.1, fetch_bbc_feed p.1 limit (oc p.1) now)

/-- The gateway's `TransformRequest` model. -/
structure TransformRequest where
  article : NewsItem
  style : String := "satirical"
  deriving DecidableEq, Repr

/-- What the wire returned for the relay call to the transformer, with the
parsed-JSON type abstract: the 60-second bound fired
(`asyncio.TimeoutError`), some other exception was raised, or an HTTP
response arrived (`json` is read when the status is 200, `text`
otherwise). -/
inductive RelayOutcome (J : Type) where
  | timeout
  | netError (msg : String)
  | resp (status : Nat) (json : J) (text : String)
  deriving Repr

/-- The gateway's `POST /transform` handler (lines 133–167).  On a non-200
upstream status the source raises `HTTPException(status, "Transformer
service error: ...")` *inside* the `try` (line 159); `HTTPException` is an
`Exception`, so the blanket `except Exception` (line 166) catches it and
raises HTTP 500 with `str(e)` in the detail instead.  Only the
`asyncio.TimeoutError` arm (line 164) produces 504. -/
def transform_article (J : Type) (_req : TransformRequest) (o : RelayOutcome J) :
    HttpResult J :=
  match o with
  | .timeout => .err 504 "Transformer service timeout"
  | .netError m => .err 500 ("Transformation failed: " ++ m)
  | .resp status json text =>
    if status = 200 then .ok json
    else
      .err 500 ("Transformation failed: "
        ++ pyStrExc (.httpExc status ("Transformer service error: " ++ text)))

end Api

/-! ## Helper lemmas -/

/-- The rejection sampler stays below `n` for positive `n`, whatever the
generator state. -/
theorem pyRandbelowAux_lt (n k : Nat) (hn : 0 < n) :
    ∀ (fuel : Nat) (g : MTState), (pyRandbelowAux n k fuel g).1 < n := by
  intro fuel
  induction fuel with
  | zero => intro g; simpa [pyRandbelowAux] using Nat.mod_lt _ hn
  | succ m ih =>
    intro g
    simp only [pyRandbelowAux]
    split
    · assumption
    · exact ih _

/-- `_randbelow(n) < n` for positive `n`. -/
theorem pyRandbelow_lt (n : Nat) (hn : 0 < n) (g : MTState) :
    (pyRandbelow n g).1 < n :=
  pyRandbelowAux_lt n _ hn 64 g

/-- `random.choice` returns an element of a nonempty sequence, whatever
the generator state. -/
theorem pyChoice_mem (l : List String) (hl : l ≠ []) (g : MTState) :
    (pyChoice l g).1 ∈ l := by
  have hn : 0 < l.length := List.length_pos.mpr hl
  have hlt := pyRandbelow_lt l.length hn g
  simp only [pyChoice]
  rw [List.getD_eq_getElem l _ hlt]
  exact List.getElem_mem _

/-- The item loop can only shrink the window it is given. -/
theorem processItems_length_le (category : String) (now : PyDateTime) :
    ∀ (rs : List Api.RssItem) (arts : List Api.NewsItem),
      Api.processItems category now rs = .ok arts → arts.length ≤ rs.length := by
  intro rs
  induction rs with
  | nil => intro arts h; simp only [Api.processItems] at h; cases h; simp
  | cons r rest ih =>
    intro arts h
    simp only [Api.processItems] at h
    rcases hp : Api.processItem category now r with e | v
    · rw [hp] at h; cases h
    · rw [hp] at h
      rcases v with _ | a
      · exact (ih arts h).trans (by simp)
      · rcases hq : Api.processItems category now rest with e | l2
        · rw [hq] at h; cases h
        · rw [hq] at h; cases h; simpa using ih l2 hq

/-- Every article accepted by `processItem` carries the requested
category. -/
theorem processItem_category (category : String) (now : PyDateTime)
    (r : Api.RssItem) (a : Api.NewsItem)
    (h : Api.processItem category now r = .ok (some a)) : a.category = category := by
  rcases r with ⟨rt, rd, rl, rp⟩
  rcases rt with _ | t
  · simp [Api.processItem] at h
  rcases rd with _ | d
  · simp [Api.processItem] at h
  rcases rl with _ | l
  · simp [Api.processItem] at h
  rcases t with _ | t
  · rcases d with _ | d <;> rcases l with _ | l <;> simp [Api.processItem] at h
  rcases d with _ | d
  · rcases l with _ | l <;> simp [Api.processItem] at h
  rcases l with _ | l
  · simp [Api.processItem] at h
  simp only [Api.processItem] at h
  rw [← Option.some.inj (Except.ok.inj h)]

/-- Every article produced by the item loop carries the requested
category. -/
theorem processItems_category (category : String) (now : PyDateTime) :
    ∀ (rs : List Api.RssItem) (arts : List Api.NewsItem),
      Api.processItems category now rs = .ok arts →
      ∀ a ∈ arts, a.category = category := by
  intro rs
  induction rs with
  | nil => intro arts h; simp only [Api.processItems] at h; cases h; simp
  | cons r rest ih =>
    intro arts h
    simp only [Api.processItems] at h
    rcases hp : Api.processItem category now r with e | v
    · rw [hp] at h; cases h
    · rw [hp] at h
      rcases v with _ | a
      · exact ih arts h
      · rcases hq : Api.processItems category now rest with e | l2
        · rw [hq] at h; cases h
        · rw [hq] at h; cases h
          intro b hb
          rcases List.mem_cons.mp hb with hb | hb
          · exact hb ▸ processItem_category category now r a hp
          · exact ih l2 hq b hb

/-- A feed fetch never returns more than `max_articles` items. -/
theorem fetch_bbc_feed_length_le (category : String) (limit : Nat)
    (o : Api.FetchOutcome) (now : PyDateTime) :
    (Api.fetch_bbc_feed category limit o now).length ≤ limit := by
  rcases o with _ | ⟨status, parsed⟩
  · simp [Api.fetch_bbc_feed]
  · simp only [Api.fetch_bbc_feed]
    split
    · simp
    · rcases parsed with _ | items
      · simp
      · rcases h : Api.processItems category now (items.take limit) with e | arts
        · simp [h]
        · simp only [h]
          refine (processItems_length_le category now _ _ h).trans ?hw
          rw [List.length_take]
          exact min_le_left _ _

/-- Every item of a feed fetch carries the requested category. -/
theorem fetch_bbc_feed_category (category : String) (limit : Nat)
    (o : Api.FetchOutcome) (now : PyDateTime) :
    ∀ a ∈ Api.fetch_bbc_feed category limit o now, a.category = category := by
  rcases o with _ | ⟨status, parsed⟩
  · simp [Api.fetch_bbc_feed]
  · simp only [Api.fetch_bbc_feed]
    split
    · simp
    · rcases parsed with _ | items
      · simp
      · rcases h : Api.processItems category now (items.take limit) with e | arts
        · simp [h]
        · simp only [h]
          exact processItems_category category now _ _ h

/-- If any single item of the window raises, the whole loop raises. -/
theorem processItems_error_of_mem (category : String) (now : PyDateTime) :
    ∀ (rs : List Api.RssItem) (r : Api.RssItem), r ∈ rs →
      Api.processItem category now r = .error () →
      Api.processItems category now rs = .error () := by
  intro rs
  induction rs with
  | nil => intro r hr; cases hr
  | cons head tail ih =>
    intro r hr he
    rcases List.mem_cons.mp hr with hr | hr
    · subst hr; simp [Api.processItems, he]
    · simp only [Api.processItems]
      rcases hp : Api.processItem category now head with e | v
      · rfl
      · rcases v with _ | a
        · exact ih r hr he
        · rw [ih r hr he]

/-- `foldl`-accumulated hex value bound: with all digit values below 16
the running value stays below `(acc + 1) * 16 ^ length`. -/
theorem pyHexVal_foldl_lt (l : List Char) (hl : ∀ c ∈ l, hexCharVal c < 16) :
    ∀ acc : Nat,
      l.foldl (fun a c => a * 16 + hexCharVal c) acc < (acc + 1) * 16 ^ l.length := by
  induction l with
  | nil => intro acc; simpa using Nat.lt_succ_self acc
  | cons c t ih =>
    intro acc
    have hv : hexCharVal c < 16 := hl c (List.mem_cons_self c t)
    have ht : ∀ x ∈ t, hexCharVal x < 16 := fun x hx => hl x (List.mem_cons_of_mem c hx)
    have h2 : (acc * 16 + hexCharVal c + 1) * 16 ^ t.length ≤
        (acc + 1) * 16 ^ (c :: t).length := by
      have hstep : acc * 16 + hexCharVal c + 1 ≤ (acc + 1) * 16 := by omega
      calc (acc * 16 + hexCharVal c + 1) * 16 ^ t.length
          ≤ (acc + 1) * 16 * 16 ^ t.length := Nat.mul_le_mul_right _ hstep
        _ = (acc + 1) * 16 ^ (c :: t).length := by
            rw [List.length_cons, pow_succ]; ring
    rw [List.foldl_cons]
    exact lt_of_lt_of_le (ih ht (acc * 16 + hexCharVal c)) h2

/-- `nibbleChar` of a nibble is a hex digit of value below 16. -/
theorem hexCharVal_nibbleChar_lt (k : Nat) (hk : k < 16) :
    hexCharVal (nibbleChar k) < 16 := by
  interval_cases k <;> decide

/-- `leBytes` only produces byte values. -/
theorem leBytes_lt_256 : ∀ (k n : Nat), ∀ b ∈ leBytes k n, b < 256 := by
  intro k
  induction k with
  | zero => intro n b hb; cases hb
  | succ m ih =>
    intro n b hb
    rcases List.mem_cons.mp hb with rfl | hb
    · exact Nat.mod_lt _ (by norm_num)
    · exact ih _ b hb

/-- MD5 digest bytes are byte values. -/
theorem md5DigestBytes_lt_256 (msg : List Nat) :
    ∀ b ∈ md5DigestBytes msg, b < 256 := by
  intro b hb
  simp only [md5DigestBytes, List.mem_append] at hb
  rcases hb with ((hb | hb) | hb) | hb <;> exact leBytes_lt_256 _ _ b hb

/-- Every character of an MD5 hexdigest has hex value below 16. -/
theorem md5HexDigest_vals_lt (msg : List Nat) :
    ∀ c ∈ md5HexDigest msg, hexCharVal c < 16 := by
  intro c hc
  simp only [md5HexDigest, List.mem_flatten, List.mem_map] at hc
  obtain ⟨l, ⟨b, hb, rfl⟩, hcl⟩ := hc
  have hb256 : b < 256 := md5DigestBytes_lt_256 msg b hb
  simp only [List.mem_cons, List.not_mem_nil, or_false] at hcl
  rcases hcl with rfl | rfl
  · exact hexCharVal_nibbleChar_lt _ (by omega)
  · exact hexCharVal_nibbleChar_lt _ (Nat.mod_lt _ (by norm_num))

/-- The derived seed is a 32-bit value. -/
theorem seedOfTitle_lt (title : String) : Transformer.seedOfTitle title < 2 ^ 32 := by
  have h1 : ∀ c ∈ (md5HexDigest (utf8Encode title)).take 8, hexCharVal c < 16 :=
    fun c hc => md5HexDigest_vals_lt _ c (List.mem_of_mem_take hc)
  have h2 := pyHexVal_foldl_lt _ h1 0
  have h3 : ((md5HexDigest (utf8Encode title)).take 8).length ≤ 8 := by
    rw [List.length_take]; exact min_le_left _ _
  calc Transformer.seedOfTitle title
      < (0 + 1) * 16 ^ ((md5HexDigest (utf8Encode title)).take 8).length := h2
    _ ≤ 16 ^ 8 := by simpa using Nat.pow_le_pow_right (by norm_num) h3
    _ = 2 ^ 32 := by norm_num

/-- The transformed title is the `titleSel` result on the lowercased
fields. -/
theorem mockGenerate_title (g : MTState) (t c : String) :
    (Transformer.mockGenerate g t c).title =
      (Transformer.titleSel g (pyLower t) (pyLower c)).1 := rfl

/-- The transformed description interpolates one seeded descriptor draw
(performed after the headline selection) into a fixed sentence. -/
theorem mockGenerate_description (g : MTState) (t c : String) :
    (Transformer.mockGenerate g t c).description =
      "In a "
      ++ (pyChoice Transformer.descriptors
            (Transformer.titleSel g (pyLower t) (pyLower c)).2).1
      ++ " that has left experts frantically updating their textbooks, recent events have confirmed what many suspected all along: things continue to happen in the world." :=
  rfl

/-- Shared sample timestamp for concrete evaluations. -/
def sampleNow : PyDateTime := ⟨2024, 1, 1, 0, 0, 0⟩

/-- Shared sample gateway relay request. -/
def sampleGwRequest : Api.TransformRequest :=
  ⟨⟨"t", "d", "l", sampleNow, "world"⟩, "satirical"⟩

/-! ## Claim theorems -/

/-- C1: the claim (and spec) says a non-200 upstream status is relayed
as-is with the upstream body in the detail, and that a relay call
exceeding the 60-second bound gives HTTP 504.  The timeout half holds,
but the non-200 half is defeated by a bug: the `HTTPException(status,
...)` raised at line 159 of `services/api/main.py` is itself an
`Exception`, so the blanket `except Exception` at line 166 catches it and
raises HTTP 500 instead.  Evaluating the handler at upstream status 502
with body "boom" yields 500, not 502. -/
theorem C1_relay_error_evaluation :
    Api.transform_article Unit sampleGwRequest (.resp 502 () "boom") =
      .err 500 "Transformation failed: 502: Transformer service error: boom"
    ∧ Api.transform_article Unit sampleGwRequest .timeout =
      .err 504 "Transformer service timeout"
    ∧ (500 : Nat) ≠ 502 := by
  refine ⟨by decide, rfl, by decide⟩

/-- C2 (counterexample): the claim quantifies over the title only, but the
fallback generator also branches on the category: the same title "Hello"
with categories "technology" and "world" yields different transformed
output (already the headlines differ). -/
theorem C2_counterexample_title_alone_not_enough :
    (Transformer.NewsItem.mk "Hello" "d" "l" "2024-01-01T00:00:00" "technology").title =
      (Transformer.NewsItem.mk "Hello" "d" "l" "2024-01-01T00:00:00" "world").title
    ∧ Transformer.transformMock ⟨"Hello", "d", "l", "2024-01-01T00:00:00", "technology"⟩ ≠
      Transformer.transformMock ⟨"Hello", "d", "l", "2024-01-01T00:00:00", "world"⟩ := by
  refine ⟨rfl, fun h => ?hq⟩
  have ht := congrArg Transformer.Transformed.title h
  have hu1 : Transformer.transformMock ⟨"Hello", "d", "l", "2024-01-01T00:00:00", "technology"⟩
      = Transformer.mockGenerate (mtSeedPython (Transformer.seedOfTitle "Hello"))
        "Hello" "technology" := rfl
  have hu2 : Transformer.transformMock ⟨"Hello", "d", "l", "2024-01-01T00:00:00", "world"⟩
      = Transformer.mockGenerate (mtSeedPython (Transformer.seedOfTitle "Hello"))
        "Hello" "world" := rfl
  rw [hu1, hu2, mockGenerate_title, mockGenerate_title] at ht
  have e1 : ∀ g : MTState,
      (Transformer.titleSel g (pyLower "Hello") (pyLower "technology")).1 =
      Transformer.technologyTitle := fun _ => rfl
  have e2 : ∀ g : MTState,
      (Transformer.titleSel g (pyLower "Hello") (pyLower "world")).1 =
      (pyChoice Transformer.satirical_angles g).1 := fun _ => rfl
  rw [e1, e2] at ht
  have h3 := pyChoice_mem Transformer.satirical_angles
    (by simp [Transformer.satirical_angles])
    (mtSeedPython (Transformer.seedOfTitle "Hello"))
  rw [← ht] at h3
  exact (by decide : Transformer.technologyTitle ∉ Transformer.satirical_angles) h3

/-- C2 (amended): two fallback-generation calls on articles with the same
title *and the same category* return byte-identical `title`,
`description` and `content` — the generator reads nothing else of the
article, and its seed depends only on the title. -/
theorem C2_same_title_and_category_deterministic :
    ∀ (a1 a2 : Transformer.NewsItem), a1.title = a2.title →
      a1.category = a2.category →
      Transformer.transformMock a1 = Transformer.transformMock a2 := by
  intro a1 a2 ht hc
  rcases a1 with ⟨t1, d1, l1, p1, c1⟩
  rcases a2 with ⟨t2, d2, l2, p2, c2⟩
  simp only at ht hc
  subst ht; subst hc
  rfl

/-- Witness for C2 (amended) at concrete articles differing everywhere
except title and category. -/
theorem C2_witness :
    Transformer.transformMock ⟨"Hello", "dA", "lA", "pA", "world"⟩ =
    Transformer.transformMock ⟨"Hello", "dB", "lB", "pB", "world"⟩ :=
  C2_same_title_and_category_deterministic _ _ rfl rfl

/-- C3: for every structurally valid request the transformer's
`POST /transform` returns HTTP 200 with status tag "success", whatever
the backend outcome; and each backend failure (network error/timeout,
non-200 backend status, malformed JSON reply) is absorbed into the fixed
`openaiErrorFallback` article rather than surfaced. -/
theorem C3_transform_endpoint_always_success :
    ∀ (configured : Bool) (req : Transformer.TransformRequest)
      (o : Transformer.BackendOutcome) (nowIso : String),
      Transformer.transform_article configured req o nowIso =
        .ok ⟨req.article,
             Transformer.transform_with_openai configured req.article req.style o,
             req.style, nowIso, "success"⟩
      ∧ (∀ m, configured = true → o = .netError m →
          Transformer.transform_with_openai configured req.article req.style o =
            Transformer.openaiErrorFallback)
      ∧ (∀ s c, configured = true → o = .resp s c → s ≠ 200 →
          Transformer.transform_with_openai configured req.article req.style o =
            Transformer.openaiErrorFallback)
      ∧ (configured = true → o = .resp 200 none →
          Transformer.transform_with_openai configured req.article req.style o =
            Transformer.openaiErrorFallback) := by
  intro configured req o nowIso
  refine ⟨rfl, ?h1, ?h2, ?h3⟩
  · rintro m rfl rfl
    rfl
  · rintro s c rfl rfl hs
    simp [Transformer.transform_with_openai, Transformer.openaiTryBody, hs]
  · rintro rfl rfl
    rfl

/-- Witness for C3: a 503 backend reply still produces HTTP 200 with
status "success" and the fixed fallback article. -/
theorem C3_witness :
    Transformer.transform_article true ⟨⟨"t", "d", "l", "p", "c"⟩, "satirical"⟩
        (.resp 503 (some "irrelevant")) "2024-01-01T00:00:00" =
      .ok ⟨⟨"t", "d", "l", "p", "c"⟩, Transformer.openaiErrorFallback,
           "satirical", "2024-01-01T00:00:00", "success"⟩ := by
  have h := C3_transform_endpoint_always_success true
    ⟨⟨"t", "d", "l", "p", "c"⟩, "satirical"⟩ (.resp 503 (some "irrelevant"))
    "2024-01-01T00:00:00"
  have h2 := h.2.2.1 503 (some "irrelevant") rfl rfl (by decide)
  rw [h.1, h2]

/-- C4: `GET /news?limit=N` returns an entry for every configured feed
category (in order), each entry holds at most `N` items, each entry is
computed only from its own category's wire outcome, and a failed fetch
(network/parse exception or non-200) degrades to an empty list under the
category's key rather than a missing key or a propagated exception. -/
theorem C4_all_news_shape :
    ∀ (limit : Nat) (oc : String → Api.FetchOutcome) (now : PyDateTime),
      (Api.get_all_news limit oc now).map Prod.fst = Api.feedKeys
      ∧ (∀ p ∈ Api.get_all_news limit oc now, p.2.length ≤ limit)
      ∧ (∀ cat ∈ Api.feedKeys,
          (Api.get_all_news limit oc now).lookup cat =
            some (Api.fetch_bbc_feed cat limit (oc cat) now))
      ∧ (∀ (cat : String) (s : Nat) (p : Option (List Api.RssItem)),
          Api.fetch_bbc_feed cat limit .exc now = []
          ∧ (s ≠ 200 → Api.fetch_bbc_feed cat limit (.resp s p) now = [])) := by
  intro limit oc now
  refine ⟨rfl, ?hlen, ?hlk, ?hfl⟩
  · intro p hp
    simp only [Api.get_all_news, Api.BBC_FEEDS, List.map_cons, List.map_nil,
      List.mem_cons, List.not_mem_nil, or_false] at hp
    rcases hp with rfl | rfl | rfl | rfl | rfl <;>
      exact fetch_bbc_feed_length_le _ _ _ _
  · intro cat hcat
    simp only [Api.feedKeys, Api.BBC_FEEDS, List.map_cons, List.map_nil,
      List.mem_cons, List.not_mem_nil, or_false] at hcat
    rcases hcat with rfl | rfl | rfl | rfl | rfl <;> rfl
  · intro cat s p
    refine ⟨rfl, fun hs => ?hnz⟩
    simp [Api.fetch_bbc_feed, hs]

/-- Witness for C4: with every feed failing, the "uk" key is present and
maps to the empty list; a 500 feed response also gives an empty list. -/
theorem C4_witness :
    (Api.get_all_news 5 (fun _ => Api.FetchOutcome.exc) sampleNow).lookup "uk" = some []
    ∧ Api.fetch_bbc_feed "uk" 5 (.resp 500 none) sampleNow = [] := by
  have h := C4_all_news_shape 5 (fun _ => Api.FetchOutcome.exc) sampleNow
  constructor
  · rw [h.2.2.1 "uk" (by decide)]
    rfl
  · exact (h.2.2.2 "uk" 500 none).2 (by decide)

/-- C5 (counterexample): the claim asserts every returned item has a
non-empty title/description/link, but the code only drops items with
*missing* elements — a present title element with whitespace-only text is
stripped to the empty string and the item is still returned. -/
theorem C5_counterexample_empty_title :
    Api.get_news_by_category "world" 10
        (.resp 200 (some [⟨some (some " "), some (some "d"), some (some "l"), none⟩]))
        sampleNow =
      .ok [⟨"", "d", "l", sampleNow, "world"⟩] := by decide

/-- C5 (amended): an unconfigured category gives HTTP 404; a configured
category gives HTTP 200 with at most `N` items, each carrying `category`
equal to the requested key (titles/descriptions/links are the stripped
element texts and may be empty). -/
theorem C5_category_endpoint_contract :
    ∀ (category : String) (limit : Nat) (o : Api.FetchOutcome) (now : PyDateTime),
      (category ∉ Api.feedKeys →
        Api.get_news_by_category category limit o now =
          .err 404 ("Category \x27" ++ category ++ "\x27 not found"))
      ∧ (category ∈ Api.feedKeys →
          Api.get_news_by_category category limit o now =
            .ok (Api.fetch_bbc_feed category limit o now)
          ∧ (Api.fetch_bbc_feed category limit o now).length ≤ limit
          ∧ (∀ a ∈ Api.fetch_bbc_feed category limit o now, a.category = category)) := by
  intro category limit o now
  constructor
  · intro hne
    simp [Api.get_news_by_category, hne]
  · intro hmem
    exact ⟨by simp [Api.get_news_by_category, hmem],
      fetch_bbc_feed_length_le _ _ _ _,
      fetch_bbc_feed_category _ _ _ _⟩

/-- Witness for C5 (amended): an unconfigured category 404s, a configured
one returns 200. -/
theorem C5_witness :
    Api.get_news_by_category "sports" 10 .exc sampleNow =
      .err 404 "Category \x27sports\x27 not found"
    ∧ Api.get_news_by_category "uk" 3 .exc sampleNow = .ok [] := by
  constructor
  · exact (C5_category_endpoint_contract "sports" 10 .exc sampleNow).1 (by decide)
  · rw [((C5_category_endpoint_contract "uk" 3 .exc sampleNow).2 (by decide)).1]
    rfl

/-- C6: the fallback headline is selected by keyword tests in source
precedence order — trump/president on the title, then health (category) /
medical (title), then business (category) / finance (title), then
technology (category); only the final default draws (uniformly via
`_randbelow`) one of the eight generic headlines from the seeded
generator.  In particular a title containing "president" after
lowercasing yields the political headline for every generator state. -/
theorem C6_headline_precedence :
    ∀ (g : MTState) (t c : String),
      ((pyIn "trump" (pyLower t) || pyIn "president" (pyLower t)) = true →
        (Transformer.mockGenerate g t c).title = Transformer.politicalTitle)
      ∧ ((pyIn "trump" (pyLower t) || pyIn "president" (pyLower t)) = false →
         (pyIn "health" (pyLower c) || pyIn "medical" (pyLower t)) = true →
        (Transformer.mockGenerate g t c).title = Transformer.healthTitle)
      ∧ ((pyIn "trump" (pyLower t) || pyIn "president" (pyLower t)) = false →
         (pyIn "health" (pyLower c) || pyIn "medical" (pyLower t)) = false →
         (pyIn "business" (pyLower c) || pyIn "finance" (pyLower t)) = true →
        (Transformer.mockGenerate g t c).title = Transformer.businessTitle)
      ∧ ((pyIn "trump" (pyLower t) || pyIn "president" (pyLower t)) = false →
         (pyIn "health" (pyLower c) || pyIn "medical" (pyLower t)) = false →
         (pyIn "business" (pyLower c) || pyIn "finance" (pyLower t)) = false →
         pyIn "technology" (pyLower c) = true →
        (Transformer.mockGenerate g t c).title = Transformer.technologyTitle)
      ∧ ((pyIn "trump" (pyLower t) || pyIn "president" (pyLower t)) = false →
         (pyIn "health" (pyLower c) || pyIn "medical" (pyLower t)) = false →
         (pyIn "business" (pyLower c) || pyIn "finance" (pyLower t)) = false →
         pyIn "technology" (pyLower c) = false →
        (Transformer.mockGenerate g t c).title ∈ Transformer.satirical_angles) := by
  intro g t c
  refine ⟨?b1, ?b2, ?b3, ?b4, ?b5⟩
  · intro h1
    rw [mockGenerate_title]
    simp [Transformer.titleSel, h1]
  · intro h1 h2
    rw [mockGenerate_title]
    simp [Transformer.titleSel, h1, h2]
  · intro h1 h2 h3
    rw [mockGenerate_title]
    simp [Transformer.titleSel, h1, h2, h3]
  · intro h1 h2 h3 h4
    rw [mockGenerate_title]
    simp [Transformer.titleSel, h1, h2, h3, h4]
  · intro h1 h2 h3 h4
    rw [mockGenerate_title]
    have : (Transformer.titleSel g (pyLower t) (pyLower c)).1 =
        (pyChoice Transformer.satirical_angles g).1 := by
      simp [Transformer.titleSel, h1, h2, h3, h4]
    rw [this]
    exact pyChoice_mem _ (by simp [Transformer.satirical_angles]) _

/-- Witness for C6 at concrete titles/categories: a "President" title in
category "politics" yields the political headline for an arbitrary
concrete state; a keyword-free article draws one of the eight generic
headlines. -/
theorem C6_witness :
    (Transformer.mockGenerate (mtSeedPython 0) "President Speaks" "politics").title =
      Transformer.politicalTitle
    ∧ (Transformer.mockGenerate (mtSeedPython 0) "Hello" "world").title ∈
      Transformer.satirical_angles :=
  ⟨(C6_headline_precedence (mtSeedPython 0) "President Speaks" "politics").1 (by decide),
   (C6_headline_precedence (mtSeedPython 0) "Hello" "world").2.2.2.2
     (by decide) (by decide) (by decide) (by decide)⟩

/-- C7: the fallback PRNG seed is the first 8 hex characters of the MD5
hexdigest of the raw article title read as a base-16 integer — hence a
32-bit value — and the whole fallback generation is the seeded-generator
computation started from exactly that seed (every draw threads from
`mtSeedPython (seedOfTitle title)`). -/
theorem C7_seed_derivation_and_threading :
    ∀ (a : Transformer.NewsItem),
      Transformer.seedOfTitle a.title =
        pyHexVal ((md5HexDigest (utf8Encode a.title)).take 8)
      ∧ Transformer.seedOfTitle a.title < 2 ^ 32
      ∧ Transformer.transformMock a =
          Transformer.mockGenerate (mtSeedPython (Transformer.seedOfTitle a.title))
            a.title a.category :=
  fun a => ⟨rfl, seedOfTitle_lt a.title, rfl⟩

/-- C8: for an accepted feed item (title, description and link elements
present with text), the published date is the parse of exactly the first
25 characters of the date text under the fixed `%a, %d %b %Y %H:%M:%S`
format, and the current timestamp is substituted when the date field is
missing, empty or unparsable — the item is returned either way. -/
theorem C8_pub_date_rule :
    ∀ (category : String) (now : PyDateTime) (r : Api.RssItem) (t d l : String),
      r.title = some (some t) → r.description = some (some d) →
      r.link = some (some l) →
      Api.processItem category now r =
        .ok (some ⟨pyStrip t, pyStrip d, pyStrip l,
          (match r.pubDate with
           | some (some s) =>
               if s == "" then now else (pyStrptimeBBC (pySlice s 25)).getD now
           | _ => now), category⟩) := by
  intro category now r t d l ht hd hl
  rcases r with ⟨rt, rd, rl, rp⟩
  simp only at ht hd hl
  subst ht; subst hd; subst hl
  rcases rp with _ | s
  · rfl
  · rcases s with _ | s
    · rfl
    · rcases hp : pyStrptimeBBC (pySlice s 25) with _ | dte <;>
        rcases hb : s == "" <;>
          simp [Api.processItem, hp, hb]

/-- Witness for C8 at a concrete well-formed BBC date (the trailing
" GMT" lies beyond the 25-character window). -/
theorem C8_witness :
    Api.processItem "world" sampleNow
        ⟨some (some "T"), some (some "D"), some (some "L"),
         some (some "Mon, 01 Jan 2024 12:00:00 GMT")⟩ =
      .ok (some ⟨"T", "D", "L", ⟨2024, 1, 1, 12, 0, 0⟩, "world"⟩) := by
  rw [C8_pub_date_rule "world" sampleNow
    ⟨some (some "T"), some (some "D"), some (some "L"),
     some (some "Mon, 01 Jan 2024 12:00:00 GMT")⟩ "T" "D" "L" rfl rfl rfl]
  exact congrArg (fun x => Except.ok (some x)) (by decide)

/-- C9 (counterexample): the claim's trigger — *some* of the three
elements present with null text — is too weak: if the title element is
absent while the description element is present with null text, the item
is silently skipped (no `.strip()` is ever called on the null text) and
the remaining items are still returned, so the feed is not emptied. -/
theorem C9_counterexample_skipped_item :
    Api.fetch_bbc_feed "world" 10
        (.resp 200 (some
          [⟨none, some none, some (some "x"), none⟩,
           ⟨some (some "t"), some (some "d"), some (some "l"), none⟩]))
        sampleNow =
      [⟨"t", "d", "l", sampleNow, "world"⟩] ∧
    Api.fetch_bbc_feed "world" 10
        (.resp 200 (some
          [⟨none, some none, some (some "x"), none⟩,
           ⟨some (some "t"), some (some "d"), some (some "l"), none⟩]))
        sampleNow ≠ [] := by
  constructor
  · decide
  · decide

/-- C9 (amended): if some item among the first `limit` items has *all
three* of title/description/link present and at least one of them carries
null text, stripping that null text raises, the blanket handler absorbs
the exception, and the whole feed fetch returns the empty list. -/
theorem C9_null_text_empties_feed :
    ∀ (category : String) (limit : Nat) (now : PyDateTime)
      (items : List Api.RssItem) (r : Api.RssItem),
      r ∈ items.take limit →
      (∃ x, r.title = some x) → (∃ x, r.description = some x) →
      (∃ x, r.link = some x) →
      (r.title = some none ∨ r.description = some none ∨ r.link = some none) →
      Api.fetch_bbc_feed category limit (.resp 200 (some items)) now = [] := by
  intro category limit now items r hmem hti hdi hli hnull
  obtain ⟨t, ht⟩ := hti
  obtain ⟨d, hd⟩ := hdi
  obtain ⟨l, hl⟩ := hli
  have herr : Api.processItem category now r = .error () := by
    rcases r with ⟨rt, rd, rl, rp⟩
    simp only at ht hd hl
    subst ht; subst hd; subst hl
    rcases hnull with h | h | h <;> simp only at h
    · injection h with h
      subst h
      rcases d with _ | d <;> rcases l with _ | l <;> rfl
    · injection h with h
      subst h
      rcases t with _ | t <;> rcases l with _ | l <;> rfl
    · injection h with h
      subst h
      rcases t with _ | t <;> rcases d with _ | d <;> rfl
  have hloop := processItems_error_of_mem category now (items.take limit) r hmem herr
  simp [Api.fetch_bbc_feed, hloop]

/-- Witness for C9 (amended): a null-text title among otherwise valid
items empties the whole feed. -/
theorem C9_witness :
    Api.fetch_bbc_feed "world" 10
        (.resp 200 (some
          [⟨some none, some (some "d"), some (some "l"), none⟩,
           ⟨some (some "t"), some (some "d"), some (some "l"), none⟩]))
        sampleNow = [] :=
  C9_null_text_empties_feed "world" 10 sampleNow
    [⟨some none, some (some "d"), some (some "l"), none⟩,
     ⟨some (some "t"), some (some "d"), some (some "l"), none⟩]
    ⟨some none, some (some "d"), some (some "l"), none⟩
    (by decide) ⟨none, rfl⟩ ⟨some "d", rfl⟩ ⟨some "l", rfl⟩ (Or.inl rfl)

/-- C10: the choice of headline branch and of body scenario/quote triple
is invariant under changing the letter case of title and category — all
keyword tests run on lowercased copies, so articles agreeing after
lowercasing get the same headline, the same description and the same
scenario triple (the body also interpolates the raw category, which is
why the claim is about branch selection). -/
theorem C10_branch_selection_case_invariant :
    ∀ (g : MTState) (t1 c1 t2 c2 : String),
      pyLower t1 = pyLower t2 → pyLower c1 = pyLower c2 →
      (Transformer.mockGenerate g t1 c1).title =
        (Transformer.mockGenerate g t2 c2).title
      ∧ (Transformer.mockGenerate g t1 c1).description =
          (Transformer.mockGenerate g t2 c2).description
      ∧ Transformer.scenarioTriple (pyLower c1) =
          Transformer.scenarioTriple (pyLower c2) := by
  intro g t1 c1 t2 c2 ht hc
  refine ⟨?ha, ?hb, ?hcq⟩
  · rw [mockGenerate_title, mockGenerate_title, ht, hc]
  · rw [mockGenerate_description, mockGenerate_description, ht, hc]
  · rw [hc]

/-- Witness for C10 at concrete case-variant inputs. -/
theorem C10_witness :
    (Transformer.mockGenerate (mtSeedPython 0) "TRUMP Wins" "Politics").title =
      (Transformer.mockGenerate (mtSeedPython 0) "trump wins" "politics").title :=
  (C10_branch_selection_case_invariant (mtSeedPython 0) "TRUMP Wins" "Politics"
    "trump wins" "politics" (by decide) (by decide)).1
